import Mathlib

/-!
Shallow embedding of the error-propagation and string-ownership bridge of
`libcrossterm` (src/lib.rs), together with the event poll/read wrappers.

The thread-local state of one OS thread consists of the cells `LAST_ERROR`
(an optional `anyhow::Error`) and `RESULT` (a C `int`).  An error value is
represented here by the UTF-8 bytes of its rendered message (the rendering
`format!("\x7b:#\x7d", err)` is deterministic, so storing the rendered bytes is a
faithful abstraction).  Rust `String`s are represented by the list of their
UTF-8 bytes, which is exactly the view `CString::new` and `malloc`/`copy`
take of them.  Pointers returned across the FFI boundary are represented by
`Option` of the pointed-to buffer contents (`none` = null pointer).
-/

namespace LibCrossterm

/-- UTF-8 byte content of a Rust `String`. -/
abbrev RStr := List Nat

/-- Bytes of an ASCII string literal (for ASCII text the UTF-8 bytes are
exactly the code points). -/
def asciiBytes (s : String) : RStr := s.data.map Char.toNat

/-- The two thread-local cells of src/lib.rs lines 93-96: `LAST_ERROR` and
`RESULT`. -/
structure CState where
  lastError : Option RStr
  result : Int
deriving DecidableEq

/-- The state of a fresh thread: `LAST_ERROR = None`, `RESULT = 0`. -/
def initState : CState := ⟨none, 0⟩

/-- `set_last_error` (src/lib.rs lines 104-109). -/
def set_last_error (e : RStr) (st : CState) : CState :=
  { st with lastError := some e }

/-- `take_last_error` (src/lib.rs lines 112-114): returns the stored error and
clears the cell. -/
def take_last_error (st : CState) : Option RStr × CState :=
  (st.lastError, { st with lastError := none })

/-- `crossterm_has_error` (src/lib.rs lines 117-120). -/
def crossterm_has_error (st : CState) : Bool :=
  st.lastError.isSome

/-- `crossterm_clear_last_error` (src/lib.rs lines 122-125). -/
def crossterm_clear_last_error (st : CState) : CState :=
  (take_last_error st).2

/-- Message of `anyhow!("Unable to convert \x7b\x7d to CString", &string)`
(src/lib.rs line 18): the byte content of the formatted string. -/
def cstringErrMsg (s : RStr) : RStr :=
  asciiBytes "Unable to convert " ++ s ++ asciiBytes " to CString"

/-- Message of `anyhow!("Unable to malloc for \x7b\x7d", &string)`
(src/lib.rs line 28). -/
def mallocErrMsg (s : RStr) : RStr :=
  asciiBytes "Unable to malloc for " ++ s

/-- `convert_string_to_c_char` (src/lib.rs lines 13-39).  `CString::new`
fails exactly when the byte content contains a `0` byte; on success the
allocated buffer holds `as_bytes_with_nul`, i.e. the content followed by the
null terminator.  `allocOk` is the oracle for whether `libc::malloc`
succeeds; on either failure the function records a Last Error and returns a
null pointer (`none`). -/
def convert_string_to_c_char (allocOk : Bool) (s : RStr) (st : CState) :
    Option RStr × CState :=
  if 0 ∈ s then
    (none, set_last_error (cstringErrMsg s) st)
  else if allocOk then
    (some (s ++ [0]), st)
  else
    (none, set_last_error (mallocErrMsg s) st)

/-- Wrap-around of Rust `as libc::c_int` (a cast of `usize` to `i32`). -/
def wrap32 (n : Int) : Int :=
  (n + 2 ^ 31) % 2 ^ 32 - 2 ^ 31

/-- `crossterm_last_error_length` (src/lib.rs lines 136-143): the byte length
of the rendered message cast to `c_int`, plus one, if an error is present,
else `0`.  The borrow of `LAST_ERROR` is read-only, so the state comes back
unchanged. -/
def crossterm_last_error_length (st : CState) : Int × CState :=
  (match st.lastError with
    | some e => wrap32 ((e.length : Int)) + 1
    | none => 0,
   st)

/-- Message of the fallback error
`anyhow!("No error message found. ...")` (src/lib.rs line 153). -/
def fallbackMsg : RStr :=
  asciiBytes "No error message found. Check library documentation for more information."

/-- `crossterm_last_error_message` (src/lib.rs lines 151-156): takes (and so
clears) the Last Error, substituting the fallback error when none is stored,
renders it and converts it to a freshly allocated C string. -/
def crossterm_last_error_message (allocOk : Bool) (st : CState) :
    Option RStr × CState :=
  match take_last_error st with
  | (e, st1) => convert_string_to_c_char allocOk (e.getD fallbackMsg) st1

/-- Message of `anyhow!("Received null pointer to free")` (src/lib.rs
line 169). -/
def freeNullErrMsg : RStr := asciiBytes "Received null pointer to free"

/-- `crossterm_free_c_char` (src/lib.rs lines 162-172).  The argument is the
pointer (`none` = null).  A non-null pointer is freed and `0` returned; a
null pointer records a Last Error and returns `-1`.  Neither branch touches
the `RESULT` cell. -/
def crossterm_free_c_char (s : Option Nat) (st : CState) : Int × CState :=
  match s with
  | some _ => (0, st)
  | none => (-1, set_last_error freeNullErrMsg st)

/-- `c_unwrap` of `impl CUnwrapper<T> for anyhow::Result<T>` (src/lib.rs
lines 46-68): on `Ok` it sets `RESULT := 0` and `take_last_error()` clears
any stale error; on `Err` it sets `RESULT := -1` and stores the error,
returning `T::default()` (passed as `d`). -/
def c_unwrap_anyhow {T : Type} (d : T) (res : Except RStr T) (st : CState) :
    T × CState :=
  match res with
  | .ok t =>
    let st1 := { st with result := 0 }
    let st2 := (take_last_error st1).2
    (t, st2)
  | .error e =>
    let st1 := { st with result := -1 }
    (d, set_last_error e st1)

/-- `c_unwrap` of `impl CUnwrapper<T> for Result<T, std::io::Error>`
(src/lib.rs lines 70-91): on `Ok` it sets `RESULT := 0` (and, unlike the
`anyhow::Result` instance, does not touch `LAST_ERROR`); on `Err` it sets
`RESULT := -1` and stores the error, returning `T::default()`. -/
def c_unwrap_io {T : Type} (d : T) (res : Except RStr T) (st : CState) :
    T × CState :=
  match res with
  | .ok t =>
    (t, { st with result := 0 })
  | .error e =>
    let st1 := { st with result := -1 }
    (d, set_last_error e st1)

/-- Shape of the typical command wrapper of src/lib.rs (e.g.
`crossterm_cursor_show`, lines 653-657): run the delegated operation, which
returns `Result<(), std::io::Error>`, through `c_unwrap`, then return the
thread-local `RESULT` via the `r!()` macro. -/
def command_wrapper (res : Except RStr Unit) (st : CState) : Int × CState :=
  match c_unwrap_io () res st with
  | (_, st1) => (st1.result, st1)

/-- `crossterm_event_poll` (src/lib.rs lines 500-507): run
`crossterm::event::poll` (an io `Result<bool>`) through `c_unwrap`; if
`crossterm_has_error()` afterwards, return the thread-local `RESULT`, else
the boolean converted to `1`/`0`. -/
def crossterm_event_poll (pollRes : Except RStr Bool) (st : CState) :
    Int × CState :=
  match c_unwrap_io false pollRes st with
  | (r, st1) =>
    if crossterm_has_error st1 then
      (st1.result, st1)
    else
      ((if r then 1 else 0), st1)

/-- Lower-case hex digit byte used by serde_json for `\u00XX` escapes. -/
def hexDigitByte (n : Nat) : Nat :=
  if n < 10 then 48 + n else 87 + n

/-- Escaping of one byte the way `serde_json` serializes string contents:
`"` and `\` are backslash-escaped, the control bytes `0x08`, `0x09`, `0x0A`,
`0x0C`, `0x0D` get their short escapes, the remaining control bytes become
`\u00XX`, and every other byte (in particular every non-ASCII UTF-8 byte)
passes through unchanged. -/
def jsonEscapeByte (b : Nat) : List Nat :=
  if b = 34 then [92, 34]
  else if b = 92 then [92, 92]
  else if b = 8 then [92, 98]
  else if b = 9 then [92, 116]
  else if b = 10 then [92, 110]
  else if b = 12 then [92, 102]
  else if b = 13 then [92, 114]
  else if b < 32 then [92, 117, 48, 48, hexDigitByte (b / 16), hexDigitByte (b % 16)]
  else [b]

/-- Byte content of `serde_json::json!(\x7b "error": s \x7d).to_string()`:
the object `\x7b"error":"<escaped s>"\x7d` with a single `"error"` text
field.  Byte `123` is `\x7b`, byte `125` is `\x7d`, byte `34` is `"`. -/
def jsonObjError (s : RStr) : RStr :=
  [123] ++ asciiBytes "\"error\":\"" ++ s.flatMap jsonEscapeByte ++ [34, 125]

/-- Outcome of the delegated `crossterm::event::read()` call together with
the subsequent `serde_json::to_string(&evt)`: either serialization produced
a JSON text, or serialization failed for the event whose debug rendering is
given, or the read itself failed with the error whose
`format!("\x7b:?\x7d", anyhow!(e))` rendering is given. -/
inductive ReadOutcome
  | serOk (json : RStr)
  | serErr (evtDbg : RStr)
  | readErr (errDbg : RStr)

/-- `crossterm_event_read` (src/lib.rs lines 518-536): build the JSON text
for the three outcomes of the read — on read failure a `\x7b"error": ...\x7d`
object, never a `set_last_error` or a `RESULT` write — and hand it to
`convert_string_to_c_char`. -/
def crossterm_event_read (allocOk : Bool) (o : ReadOutcome) (st : CState) :
    Option RStr × CState :=
  let string :=
    match o with
    | .serOk json => json
    | .serErr evtDbg =>
      jsonObjError
        (asciiBytes "Unable to convert event " ++ evtDbg ++ asciiBytes " to JSON")
    | .readErr errDbg =>
      jsonObjError
        (asciiBytes "Something went wrong with crossterm_event_read(): " ++ errDbg)
  convert_string_to_c_char allocOk string st

/-! Helper lemmas shared by the claim theorems. -/

theorem wrap32_eq_of_lt {n : Int} (h0 : 0 ≤ n) (h : n < 2 ^ 31) : wrap32 n = n := by
  unfold wrap32
  omega

theorem zero_not_mem_hexDigitByte (n : Nat) : hexDigitByte n ≠ 0 := by
  unfold hexDigitByte
  split <;> omega

theorem zero_not_mem_jsonEscapeByte (b : Nat) : 0 ∉ jsonEscapeByte b := by
  by_cases hlt : b < 32
  · interval_cases b <;> decide
  · unfold jsonEscapeByte
    rcases eq_or_ne b 34 with rfl | h34
    · decide
    rcases eq_or_ne b 92 with rfl | h92
    · decide
    rw [if_neg h34, if_neg h92, if_neg (by omega), if_neg (by omega),
      if_neg (by omega), if_neg (by omega), if_neg (by omega), if_neg hlt]
    simp only [List.mem_singleton]
    omega

theorem zero_not_mem_jsonObjError (s : RStr) : 0 ∉ jsonObjError s := by
  unfold jsonObjError
  intro hmem
  simp only [List.mem_append, List.mem_cons] at hmem
  rcases hmem with ((h | h) | h) | h
  · simp at h
  · revert h; decide
  · rcases List.mem_flatMap.mp h with ⟨b, _, hb⟩
    exact zero_not_mem_jsonEscapeByte b hb
  · simp at h

/-- C5: `crossterm_free_c_char` on a non-null pointer returns `0` and leaves
the state (in particular the Last Error) untouched; on a null pointer it
returns `-1` and records the "Received null pointer to free" Last Error. -/
theorem C5_free_c_char (addr : Nat) (st : CState) :
    crossterm_free_c_char (some addr) st = (0, st) ∧
    crossterm_free_c_char none st = (-1, set_last_error freeNullErrMsg st) ∧
    crossterm_has_error ((crossterm_free_c_char none st).2) = true := by
  refine ⟨rfl, rfl, ?_⟩
  simp [crossterm_free_c_char, set_last_error, crossterm_has_error]

/-- C6: for every text without an embedded null byte,
`convert_string_to_c_char` returns the text's bytes followed by the null
terminator and leaves the state untouched, so stripping the terminator
reproduces the text exactly; in particular the text `"ok"` yields the
3-byte buffer `[111, 107, 0]`. -/
theorem C6_roundtrip :
    (∀ (s : RStr) (st : CState), 0 ∉ s →
      convert_string_to_c_char true s st = (some (s ++ [0]), st) ∧
      (s ++ [0]).dropLast = s) ∧
    convert_string_to_c_char true (asciiBytes "ok") initState =
      (some [111, 107, 0], initState) := by
  constructor
  · intro s st h
    refine ⟨?_, by simp⟩
    simp [convert_string_to_c_char, h]
  · decide

/-- Witness for C6 at the concrete text `"ok"`. -/
theorem C6_roundtrip_witness :
    0 ∉ asciiBytes "ok" ∧
    (convert_string_to_c_char true (asciiBytes "ok") initState =
       (some (asciiBytes "ok" ++ [0]), initState) ∧
     (asciiBytes "ok" ++ [0]).dropLast = asciiBytes "ok") :=
  ⟨by decide, C6_roundtrip.1 (asciiBytes "ok") initState (by decide)⟩

/-- C7: for every text with an embedded null byte, and whether or not the
allocator would succeed, `convert_string_to_c_char` returns a null pointer
and records the "Unable to convert ... to CString" Last Error. -/
theorem C7_embedded_null (s : RStr) (st : CState) (allocOk : Bool)
    (h : 0 ∈ s) :
    convert_string_to_c_char allocOk s st =
      (none, set_last_error (cstringErrMsg s) st) ∧
    crossterm_has_error ((convert_string_to_c_char allocOk s st).2) = true := by
  refine ⟨by simp [convert_string_to_c_char, h], ?_⟩
  simp [convert_string_to_c_char, h, set_last_error, crossterm_has_error]

/-- Witness for C7 at the concrete byte content `[97, 0, 98]` (the text
`"a\x00b"`). -/
theorem C7_embedded_null_witness :
    0 ∈ ([97, 0, 98] : RStr) ∧
    (convert_string_to_c_char true [97, 0, 98] initState =
       (none, set_last_error (cstringErrMsg [97, 0, 98]) initState) ∧
     crossterm_has_error
       ((convert_string_to_c_char true [97, 0, 98] initState).2) = true) :=
  ⟨by decide, C7_embedded_null [97, 0, 98] initState true (by decide)⟩

/-- C1 counterexample: the claim fails on the code.  Starting from a thread
state holding a stale Last Error, a wrapper whose delegate returns
`Result<T, std::io::Error>` (the shape of every wrapper call site in
src/lib.rs) succeeds, yet `crossterm_has_error()` still returns `true`
afterwards, because that `c_unwrap` instance does not clear `LAST_ERROR` on
success; only the status is reset to `0`. -/
theorem C1_counterexample :
    crossterm_has_error
      ((command_wrapper (.ok ()) ⟨some (asciiBytes "boom"), -1⟩).2) = true ∧
    ((command_wrapper (.ok ()) ⟨some (asciiBytes "boom"), -1⟩).2).result = 0 := by
  decide

/-- C1 amended: on success every unwrapper sets the thread-local status to
`0`; the `anyhow::Result` instance of `c_unwrap` additionally clears the
Last Error (so `crossterm_has_error()` is `false`), but the
`Result<T, std::io::Error>` instance — the one used by the wrapper
operations — leaves `LAST_ERROR` exactly as it was, so a previously stored
error survives a successful call. -/
theorem C1_success_amended {T : Type} (d t : T) (st : CState) :
    (((c_unwrap_anyhow d (.ok t) st).2).result = 0 ∧
     crossterm_has_error ((c_unwrap_anyhow d (.ok t) st).2) = false) ∧
    (((c_unwrap_io d (.ok t) st).2).result = 0 ∧
     ((c_unwrap_io d (.ok t) st).2).lastError = st.lastError) ∧
    ((command_wrapper (.ok ()) st).1 = 0 ∧
     ((command_wrapper (.ok ()) st).2).lastError = st.lastError) := by
  simp [c_unwrap_anyhow, c_unwrap_io, command_wrapper, take_last_error,
    crossterm_has_error]

/-- C2 counterexample: the claim fails on the code at
`crossterm_free_c_char(null)`.  From a clean thread state the call records a
Last Error and returns `-1`, but it never writes the thread-local `RESULT`
cell, which stays `0` instead of the `-1` the claim asserts. -/
theorem C2_counterexample :
    (crossterm_free_c_char none initState).1 = -1 ∧
    crossterm_has_error ((crossterm_free_c_char none initState).2) = true ∧
    ((crossterm_free_c_char none initState).2).result = 0 := by
  decide

/-- C2 amended: every operation that fails through `c_unwrap` (either
instance) leaves `crossterm_has_error()` true and the thread-local status
`-1`; `crossterm_free_c_char(null)`, however, records a Last Error and
returns `-1` as its return value while leaving the thread-local status
unchanged. -/
theorem C2_failure_amended {T : Type} (d : T) (e : RStr) (st : CState) :
    (crossterm_has_error ((c_unwrap_anyhow d (.error e) st).2) = true ∧
     ((c_unwrap_anyhow d (.error e) st).2).result = -1) ∧
    (crossterm_has_error ((c_unwrap_io d (.error e) st).2) = true ∧
     ((c_unwrap_io d (.error e) st).2).result = -1) ∧
    ((command_wrapper (.error e) st).1 = -1 ∧
     crossterm_has_error ((command_wrapper (.error e) st).2) = true) ∧
    ((crossterm_free_c_char none st).1 = -1 ∧
     crossterm_has_error ((crossterm_free_c_char none st).2) = true ∧
     ((crossterm_free_c_char none st).2).result = st.result) := by
  simp [c_unwrap_anyhow, c_unwrap_io, command_wrapper, set_last_error,
    crossterm_has_error, crossterm_free_c_char]

/-- C3: after exactly one recorded failure (whose rendered message has no
embedded null byte), the first `crossterm_last_error_message` call returns
the real message (null-terminated) and clears the Last Error, and a second
consecutive call returns the generic fallback message; the two results
differ whenever the real message is not itself the fallback text.
Equivalently, `take_last_error` returns the stored error and leaves the
Last Error cell empty. -/
theorem C3_read_and_clear (e : RStr) (st : CState)
    (hsome : st.lastError = some e) (hnull : 0 ∉ e) :
    (crossterm_last_error_message true st).1 = some (e ++ [0]) ∧
    ((crossterm_last_error_message true st).2).lastError = none ∧
    (crossterm_last_error_message true
        ((crossterm_last_error_message true st).2)).1 =
      some (fallbackMsg ++ [0]) ∧
    (e ≠ fallbackMsg →
      (crossterm_last_error_message true st).1 ≠
        (crossterm_last_error_message true
          ((crossterm_last_error_message true st).2)).1) ∧
    take_last_error st = (some e, { st with lastError := none }) := by
  have hfb : 0 ∉ fallbackMsg := by decide
  refine ⟨?_, ?_, ?_, ?_, ?_⟩
  · simp [crossterm_last_error_message, take_last_error,
      convert_string_to_c_char, hsome, hnull]
  · simp [crossterm_last_error_message, take_last_error,
      convert_string_to_c_char, hsome, hnull]
  · simp [crossterm_last_error_message, take_last_error,
      convert_string_to_c_char, hsome, hnull, hfb]
  · intro hne
    simp [crossterm_last_error_message, take_last_error,
      convert_string_to_c_char, hsome, hnull, hfb, hne]
  · simp [take_last_error, hsome]

/-- Witness for C3 with the single recorded error message `"boom"`. -/
theorem C3_read_and_clear_witness :
    0 ∉ asciiBytes "boom" ∧
    (crossterm_last_error_message true ⟨some (asciiBytes "boom"), -1⟩).1 =
      some (asciiBytes "boom" ++ [0]) :=
  ⟨by decide,
   (C3_read_and_clear (asciiBytes "boom") ⟨some (asciiBytes "boom"), -1⟩
     rfl (by decide)).1⟩

/-- C4: when the underlying `crossterm::event::read()` fails,
`crossterm_event_read` leaves the thread-local state completely unchanged —
no Last Error is recorded and the status is untouched — and returns a
freshly allocated null-terminated buffer holding the JSON object with the
single `"error"` text field built from the failure. -/
theorem C4_event_read_error (errDbg : RStr) (st : CState) :
    crossterm_event_read true (.readErr errDbg) st =
      (some (jsonObjError
        (asciiBytes "Something went wrong with crossterm_event_read(): " ++
          errDbg) ++ [0]), st) ∧
    crossterm_has_error ((crossterm_event_read true (.readErr errDbg) st).2) =
      crossterm_has_error st ∧
    ((crossterm_event_read true (.readErr errDbg) st).2).result = st.result := by
  have h := zero_not_mem_jsonObjError
    (asciiBytes "Something went wrong with crossterm_event_read(): " ++ errDbg)
  refine ⟨?_, ?_, ?_⟩ <;>
    simp [crossterm_event_read, convert_string_to_c_char, h]

/-- C8: `crossterm_last_error_length` returns `0` when no Last Error is
present, and the byte length of the rendered message plus one for the
trailing null terminator when one is present (whenever that value is
representable in a C `int`). -/
theorem C8_error_length (st : CState) :
    (st.lastError = none → crossterm_last_error_length st = (0, st)) ∧
    (∀ e, st.lastError = some e → ((e.length : Int)) + 1 < 2 ^ 31 →
      (crossterm_last_error_length st).1 = ((e.length : Int)) + 1) := by
  constructor
  · intro h
    simp [crossterm_last_error_length, h]
  · intro e he hlt
    have h0 : (0 : Int) ≤ (e.length : Int) := Int.natCast_nonneg _
    have h1 : (e.length : Int) < 2 ^ 31 := by omega
    simp [crossterm_last_error_length, he, wrap32_eq_of_lt h0 h1]

/-- Witness for C8: the clean state yields `0`; the state holding the
error message `"boom"` (4 bytes) yields `5`. -/
theorem C8_error_length_witness :
    crossterm_last_error_length initState = (0, initState) ∧
    (((asciiBytes "boom").length : Int) + 1 < 2 ^ 31 ∧
     (crossterm_last_error_length ⟨some (asciiBytes "boom"), -1⟩).1 =
       ((asciiBytes "boom").length : Int) + 1) :=
  ⟨(C8_error_length initState).1 rfl,
   by decide,
   (C8_error_length ⟨some (asciiBytes "boom"), -1⟩).2 (asciiBytes "boom")
     rfl (by decide)⟩

/-- C9: from a clean thread state, `crossterm_event_poll` returns `0` with
status `0` and no error when the underlying poll reports no event within
the timeout, returns `1` when the underlying poll reports an event
available, and returns `-1` when the underlying poll fails. -/
theorem C9_event_poll (st : CState) (e : RStr)
    (hclean : st.lastError = none) :
    (crossterm_event_poll (.ok false) st).1 = 0 ∧
    ((crossterm_event_poll (.ok false) st).2).result = 0 ∧
    crossterm_has_error ((crossterm_event_poll (.ok false) st).2) = false ∧
    (crossterm_event_poll (.ok true) st).1 = 1 ∧
    (crossterm_event_poll (.error e) st).1 = -1 := by
  simp [crossterm_event_poll, c_unwrap_io, crossterm_has_error, hclean,
    set_last_error]

/-- Witness for C9 from the initial thread state. -/
theorem C9_event_poll_witness :
    (crossterm_event_poll (.ok false) initState).1 = 0 ∧
    (crossterm_event_poll (.ok true) initState).1 = 1 ∧
    (crossterm_event_poll (.error (asciiBytes "boom")) initState).1 = -1 :=
  ⟨(C9_event_poll initState (asciiBytes "boom") rfl).1,
   (C9_event_poll initState (asciiBytes "boom") rfl).2.2.2.1,
   (C9_event_poll initState (asciiBytes "boom") rfl).2.2.2.2⟩

/-- C10: `crossterm_last_error_length` is a non-clearing peek: it returns
the state unchanged, two consecutive calls return the same value, and a
subsequent `crossterm_last_error_message` still returns the real stored
message rather than the fallback. -/
theorem C10_length_peek (st : CState) :
    (crossterm_last_error_length st).2 = st ∧
    (crossterm_last_error_length ((crossterm_last_error_length st).2)).1 =
      (crossterm_last_error_length st).1 ∧
    (∀ e, st.lastError = some e → 0 ∉ e →
      (crossterm_last_error_message true
          ((crossterm_last_error_length st).2)).1 = some (e ++ [0])) := by
  refine ⟨rfl, rfl, ?_⟩
  intro e he hnull
  simp [crossterm_last_error_length, crossterm_last_error_message,
    take_last_error, convert_string_to_c_char, he, hnull]

/-- Witness for C10 at the state holding the error message `"x"`. -/
theorem C10_length_peek_witness :
    (crossterm_last_error_length ⟨some (asciiBytes "x"), 0⟩).2 =
      ⟨some (asciiBytes "x"), 0⟩ ∧
    0 ∉ asciiBytes "x" ∧
    (crossterm_last_error_message true
        ((crossterm_last_error_length ⟨some (asciiBytes "x"), 0⟩).2)).1 =
      some (asciiBytes "x" ++ [0]) :=
  ⟨(C10_length_peek ⟨some (asciiBytes "x"), 0⟩).1,
   by decide,
   (C10_length_peek ⟨some (asciiBytes "x"), 0⟩).2.2 (asciiBytes "x")
     rfl (by decide)⟩

end LibCrossterm
